import Mathlib

/-!
Verification of the job-submission orchestrator in `run_jobs.py`
(`adjust_job_paths`, `setup_jobs`) against its natural-language
specification, with the local runner `test_run_jobs.py` as a cross-check.

Modelling conventions:
* Python dicts that preserve insertion order are association lists
  (`List (String × String)`); `dictSet` is `d[k] = v` (update in place on an
  existing key, append otherwise); `dictGet?` is `d.get(k)`.
* Optional configuration fields (`"x" in job_config`) are `Option` fields.
* Environment variables are `Option String` (`none` when unset); Python
  truthiness of a string value is `truthy`.
* The vendor request object `cmlapi.CreateJobRequest` is a structure whose
  attributes start out unset (`none`); `hasattr(job_body, f)` is `f ≠ none`.
* The external client is an oracle: `create_ok key` says whether the
  creation call for the job at `key` raises, and `mkId key` is the
  identifier the platform returns on success.  Calls issued to the client
  are recorded in a `Call` trace.
-/

/-- Python string truthiness for an optional environment value:
`None` and the empty string are falsy. -/
def truthy (o : Option String) : Bool :=
  match o with
  | none => false
  | some s => s != ""

/-- `d[k] = v` on an insertion-ordered dict: update in place when the key
exists, append at the end otherwise. -/
def dictSet (d : List (String × String)) (k v : String) : List (String × String) :=
  if (d.map Prod.fst).contains k then
    d.map (fun p => if p.1 = k then (k, v) else p)
  else
    d ++ [(k, v)]

/-- `d.get(k)` on an insertion-ordered dict. -/
def dictGet? (d : List (String × String)) (k : String) : Option String :=
  (d.find? (fun p => p.1 = k)).map Prod.snd

/-- One entry of the `jobs` mapping of `config/jobs_config.yaml`, as read by
`run_jobs.py`.  Numeric values (`cpu`, `memory`, `timeout`, ...) are kept in
their `str()` form, which is what `setup_jobs` puts on the request. -/
structure JobConfig where
  name : String
  script : String
  kernel : Option String := none
  runtime_id : Option String := none
  cpu : Option String := none
  memory : Option String := none
  nvidia_gpu : Option String := none
  timeout : Option String := none
  arguments : Option String := none
  environment : Option (List (String × String)) := none
  attachments : Option (List String) := none
  schedule : Option String := none
  parent_job_id : Option String := none
deriving DecidableEq, Repr

/-- The `cmlapi.CreateJobRequest` object as populated by `setup_jobs`:
attributes that the code never assigns stay unset (`none`). -/
structure CreateJobRequest where
  name : String
  script : String
  kernel : String
  runtime_identifier : Option String := none
  cpu : String
  memory : String
  nvidia_gpu : Option String := none
  timeout : String
  arguments : Option String := none
  environment : Option (List (String × String)) := none
  attachments : Option (List String) := none
  schedule : Option String := none
  parent_job_id : Option String := none
deriving DecidableEq, Repr

/-- The batch-wide configuration `setup_jobs` reads from the process
environment: the active template directory (`TEMPLATE_DIR`, default
`"template"`), the default runtime (`CML_RUNTIME_ID`) and the default
resource values (`DEFAULT_CPU`, `DEFAULT_MEMORY`, `DEFAULT_TIMEOUT`). -/
structure Batch where
  template_dir : String := "template"
  default_runtime_id : Option String := none
  default_cpu : Option String := none
  default_memory : Option String := none
  default_timeout : Option String := none
deriving DecidableEq, Repr

/-- Warnings printed by `setup_jobs` while translating one job. -/
inductive JobWarning where
  | noRuntime
  | missingParent (parentKey : String)
deriving DecidableEq, Repr

/-- One call issued to the external `cmlapi` client. -/
inductive Call where
  | create (key : String) (req : CreateJobRequest)
  | start (id : String)
deriving DecidableEq, Repr

/-- Python `s.replace(pat, rep)` on character lists, with fuel (one unit per
character examined); replaces non-overlapping occurrences left to right. -/
def replaceAllFuel (pat rep : List Char) : Nat → List Char → List Char
  | 0, s => s
  | _ + 1, [] => []
  | n + 1, c :: rest =>
    if pat ≠ [] ∧ pat.isPrefixOf (c :: rest) then
      rep ++ replaceAllFuel pat rep n ((c :: rest).drop pat.length)
    else
      c :: replaceAllFuel pat rep n rest

/-- Python `s.replace(pat, rep)` for strings (the `pat = ""` corner of
Python inserts `rep` between characters; `run_jobs.py` only ever uses the
non-empty pattern `"template/"`, and on a non-empty pattern the fuel
`s.length` is enough to scan the whole string). -/
def pyReplace (s pat rep : String) : String :=
  ⟨replaceAllFuel pat.data rep.data s.data.length s.data⟩

/-- Python `s.startswith(pat)`. -/
def pyStartsWith (s pat : String) : Bool :=
  pat.data.isPrefixOf s.data

/-- `adjust_job_paths` (`run_jobs.py` lines 66-84): shallow-copy the job
config and, when the `script` starts with the literal `template/`, replace
every occurrence of `template/` in it with the configured template
directory followed by `/`. -/
def adjust_job_paths (template_dir : String) (jc : JobConfig) : JobConfig :=
  if pyStartsWith jc.script "template/" then
    { jc with script := pyReplace jc.script "template/" (template_dir ++ "/") }
  else
    jc

/-- The environment map put on the request (`run_jobs.py` lines 221-228):
start from the declared map when there is one (else a fresh empty dict) and
then assign `TEMPLATE_DIR`. -/
def mergedEnvironment (template_dir : String) (declared : Option (List (String × String))) :
    List (String × String) :=
  dictSet (declared.getD []) "TEMPLATE_DIR" template_dir

/-- Translation of a non-bootstrap job (`run_jobs.py` lines 192-243) into a
request, given the current `job_id_map`; also returns the warnings printed. -/
def translate_job (b : Batch) (jc : JobConfig) (job_id_map : List (String × String)) :
    CreateJobRequest × List JobWarning :=
  let runtimeWarn : List JobWarning :=
    if jc.runtime_id.isNone ∧ ¬ truthy b.default_runtime_id then [.noRuntime] else []
  let req : CreateJobRequest :=
    { name := jc.name
      script := jc.script
      kernel := jc.kernel.getD "python3"
      runtime_identifier :=
        match jc.runtime_id with
        | some r => some r
        | none => if truthy b.default_runtime_id then b.default_runtime_id else none
      cpu := jc.cpu.getD (b.default_cpu.getD "1")
      memory := jc.memory.getD (b.default_memory.getD "2")
      nvidia_gpu := jc.nvidia_gpu
      timeout := jc.timeout.getD (b.default_timeout.getD "3600")
      arguments := jc.arguments
      environment := some (mergedEnvironment b.template_dir jc.environment)
      attachments := jc.attachments
      schedule := jc.schedule
      parent_job_id :=
        match jc.schedule with
        | some _ => none
        | none =>
          match jc.parent_job_id with
          | none => none
          | some p => dictGet? job_id_map p }
  let parentWarn : List JobWarning :=
    match jc.schedule, jc.parent_job_id with
    | none, some p => if (dictGet? job_id_map p).isNone then [.missingParent p] else []
    | _, _ => []
  (req, runtimeWarn ++ parentWarn)

/-- Translation of the bootstrap job `create_env` (`run_jobs.py` lines
133-166): same field resolution, but the code never assigns `attachments`,
`schedule` or `parent_job_id` on this branch, and prints no runtime
warning. -/
def translate_bootstrap (b : Batch) (jc : JobConfig) : CreateJobRequest :=
  { name := jc.name
    script := jc.script
    kernel := jc.kernel.getD "python3"
    runtime_identifier :=
      match jc.runtime_id with
      | some r => some r
      | none => if truthy b.default_runtime_id then b.default_runtime_id else none
    cpu := jc.cpu.getD (b.default_cpu.getD "1")
    memory := jc.memory.getD (b.default_memory.getD "2")
    nvidia_gpu := jc.nvidia_gpu
    timeout := jc.timeout.getD (b.default_timeout.getD "3600")
    arguments := jc.arguments
    environment := some (mergedEnvironment b.template_dir jc.environment) }

/-- State of a loaded `JobConfig` after `setup_jobs` has processed its job.
`adjust_job_paths` copies only the outer dict, so the nested `environment`
dict on the copy is the very dict of the loaded definition, and the
assignment `job_body.environment[TEMPLATE_DIR] = template_dir`
(lines 223 and 228) writes through that shared reference; a job that
declares no `environment` gets a fresh dict instead and the loaded
definition is untouched. -/
def config_after_setup (template_dir : String) (jc : JobConfig) : JobConfig :=
  match jc.environment with
  | none => jc
  | some d => { jc with environment := some (dictSet d "TEMPLATE_DIR" template_dir) }

/-- The loop over the non-bootstrap jobs (`run_jobs.py` lines 183-265):
skip `create_env`, adjust paths, translate, issue the creation call, and on
success record the returned identifier; a failure is logged and the loop
continues. -/
def processOthers (b : Batch) (create_ok : String → Bool) (mkId : String → String) :
    List (String × JobConfig) → List (String × String) → List Call →
    List Call × List (String × String)
  | [], m, trace => (trace, m)
  | (k, jc) :: rest, m, trace =>
    if k = "create_env" then
      processOthers b create_ok mkId rest m trace
    else
      let req := (translate_job b (adjust_job_paths b.template_dir jc) m).1
      if create_ok k then
        processOthers b create_ok mkId rest (dictSet m k (mkId k)) (trace ++ [.create k req])
      else
        processOthers b create_ok mkId rest m (trace ++ [.create k req])

/-- `setup_jobs` after the environment check (`run_jobs.py` lines 112-267):
process `create_env` first when present (creation call, then a start call
for the returned identifier; a failure there is caught, logged and the loop
over the other jobs still runs), then all other jobs in declared order.
Returns the trace of client calls and the final `job_id_map`. -/
def setup_jobs (b : Batch) (jobs : List (String × JobConfig))
    (create_ok : String → Bool) (mkId : String → String) :
    List Call × List (String × String) :=
  match jobs.find? (fun p => p.1 = "create_env") with
  | none => processOthers b create_ok mkId jobs [] []
  | some (_, jc0) =>
    let req := translate_bootstrap b (adjust_job_paths b.template_dir jc0)
    if create_ok "create_env" then
      let id := mkId "create_env"
      processOthers b create_ok mkId jobs (dictSet [] "create_env" id)
        [.create "create_env" req, .start id]
    else
      processOthers b create_ok mkId jobs [] [.create "create_env" req]

/-- The list of required environment variables that are missing
(`run_jobs.py` lines 101-109), in the order the code appends them. -/
def missing_env_vars (api_host api_key project_id : Option String) : List String :=
  (if truthy api_host then [] else ["CML_API_HOST"]) ++
  (if truthy api_key then [] else ["CML_API_KEY"]) ++
  (if truthy project_id then [] else ["CML_PROJECT_ID"])

/-- The pre-submission check of `setup_jobs` (`run_jobs.py` lines 94-110):
raise a `ValueError` enumerating the missing required variables before
anything else runs. -/
def check_required_env (api_host api_key project_id : Option String) :
    Except (List String) Unit :=
  if truthy api_host && truthy api_key && truthy project_id then
    .ok ()
  else
    .error (missing_env_vars api_host api_key project_id)

/-- `setup_jobs` including its environment check: on a missing variable the
run raises before any client call; otherwise it runs the submission loop. -/
def setup_jobs_checked (api_host api_key project_id : Option String) (b : Batch)
    (jobs : List (String × JobConfig)) (create_ok : String → Bool) (mkId : String → String) :
    Except (List String) (List Call × List (String × String)) :=
  match check_required_env api_host api_key project_id with
  | .error m => .error m
  | .ok _ => .ok (setup_jobs b jobs create_ok mkId)

/-- The keys of the creation calls of a trace, in order: the order in which
jobs were translated and submitted. -/
def createKeys (t : List Call) : List String :=
  t.filterMap fun c =>
    match c with
    | .create k _ => some k
    | .start _ => none

/-- The identifiers of the start calls of a trace, in order. -/
def startIds (t : List Call) : List String :=
  t.filterMap fun c =>
    match c with
    | .create _ _ => none
    | .start i => some i

/-! ### Concrete fixtures used in witnesses and counterexamples -/

/-- A batch with every environment default unset (`TEMPLATE_DIR` falls back
to `"template"`). -/
def wB : Batch := {}

/-- A client whose creation calls all succeed. -/
def coT : String → Bool := fun _ => true

/-- A client whose creation call fails exactly on the bootstrap job. -/
def coFailBoot : String → Bool := fun k => k != "create_env"

/-- Identifier assignment used by the concrete runs. -/
def mkW : String → String := fun k => String.append k "-id"

def jcPlainA : JobConfig := { name := "A", script := "a.py" }

def jcPlainE : JobConfig := { name := "E", script := "e.py" }

def jcDepB : JobConfig := { name := "B", script := "b.py", parent_job_id := some "create_env" }

/-- A configuration with the bootstrap key in the middle. -/
def wJobs : List (String × JobConfig) :=
  [("job_a", jcPlainA), ("create_env", jcPlainE), ("job_b", jcDepB)]

/-- The configuration of the claim about bootstrap failure:
`create_env` plus a job that depends on it. -/
def c1Jobs : List (String × JobConfig) := [("create_env", jcPlainA), ("job_b", jcDepB)]

/-- A job declaring one environment entry. -/
def jcEnvX : JobConfig := { name := "X", script := "x.py", environment := some [("X", "1")] }

/-- A bootstrap definition that declares attachments, a schedule and a
parent, all of which `setup_jobs` ignores on the bootstrap branch. -/
def jcBootFull : JobConfig :=
  { name := "E", script := "e.py", attachments := some ["data.txt"],
    schedule := some "0 0 1 1 1", parent_job_id := some "job_a" }

/-- A configuration whose bootstrap job declares the ignored fields. -/
def c9Jobs : List (String × JobConfig) := [("create_env", jcBootFull)]

/-- A job whose script mentions `template/` twice. -/
def jcTpl : JobConfig := { name := "T", script := "template/scripts/template/x.py" }

/-! ### Dictionary lemmas -/

theorem dictGet?_map_update_ne (d : List (String × String)) (k v k' : String) (h : k' ≠ k) :
    dictGet? (d.map fun p => if p.1 = k then (k, v) else p) k' = dictGet? d k' := by
  induction d with
  | nil => rfl
  | cons a d ih =>
    simp only [List.map_cons]
    by_cases ha : a.1 = k
    · rw [if_pos ha, dictGet?, dictGet?, List.find?_cons_of_neg, List.find?_cons_of_neg]
      · exact ih
      · simp only [decide_eq_true_eq]
        rw [ha]; exact fun hh => h (Eq.symm hh)
      · simp only [decide_eq_true_eq]
        exact fun hh => h (Eq.symm hh)
    · rw [if_neg ha]
      by_cases ha' : a.1 = k'
      · rw [dictGet?, dictGet?, List.find?_cons_of_pos, List.find?_cons_of_pos]
        · simp [ha']
        · simp [ha']
      · rw [dictGet?, dictGet?, List.find?_cons_of_neg, List.find?_cons_of_neg]
        · exact ih
        · simp [ha']
        · simp [ha']

theorem dictGet?_map_update_self (d : List (String × String)) (k v : String)
    (h : k ∈ d.map Prod.fst) :
    dictGet? (d.map fun p => if p.1 = k then (k, v) else p) k = some v := by
  induction d with
  | nil => simp at h
  | cons a d ih =>
    simp only [List.map_cons]
    by_cases ha : a.1 = k
    · rw [if_pos ha, dictGet?, List.find?_cons_of_pos]
      · rfl
      · simp
    · rw [if_neg ha, dictGet?, List.find?_cons_of_neg]
      · have h' : k ∈ d.map Prod.fst := by
          rcases List.mem_cons.mp h with h0 | h0
          · exact absurd h0.symm ha
          · exact h0
        exact ih h'
      · simp [ha]

theorem dictGet?_dictSet (d : List (String × String)) (k v k' : String) :
    dictGet? (dictSet d k v) k' = if k' = k then some v else dictGet? d k' := by
  unfold dictSet
  have hmem : (d.map Prod.fst).contains k = decide (k ∈ d.map Prod.fst) := by
    simp [List.contains]
  by_cases hc : k ∈ d.map Prod.fst
  · rw [hmem, decide_eq_true hc, if_pos rfl]
    by_cases hk : k' = k
    · subst hk; simp [dictGet?_map_update_self d k' v hc]
    · simp [hk, dictGet?_map_update_ne d k v k' hk]
  · rw [hmem, decide_eq_false hc, if_neg (by simp)]
    have hf : d.find? (fun p => p.1 = k) = none := by
      rw [List.find?_eq_none]
      intro x hx
      simp only [decide_eq_true_eq]
      intro hxk
      exact hc (hxk ▸ List.mem_map_of_mem Prod.fst hx)
    by_cases hk : k' = k
    · subst hk
      rw [if_pos rfl, dictGet?, List.find?_append, hf]
      simp [List.find?]
    · rw [if_neg hk, dictGet?, dictGet?, List.find?_append]
      have h1 : List.find? (fun p => p.1 = k') [(k, v)] = none := by
        rw [List.find?_cons_of_neg, List.find?_nil]
        simp only [decide_eq_true_eq]
        exact fun hh => hk (Eq.symm hh)
      rw [h1, Option.or_none]

/-! ### Trace lemmas -/

theorem createKeys_append (a b : List Call) :
    createKeys (a ++ b) = createKeys a ++ createKeys b := by
  simp [createKeys]

theorem startIds_append (a b : List Call) :
    startIds (a ++ b) = startIds a ++ startIds b := by
  simp [startIds]

theorem createKeys_single_create (k : String) (req : CreateJobRequest) :
    createKeys [Call.create k req] = [k] := rfl

theorem startIds_single_create (k : String) (req : CreateJobRequest) :
    startIds [Call.create k req] = [] := rfl

theorem processOthers_createKeys (b : Batch) (co : String → Bool) (mk : String → String)
    (jobs : List (String × JobConfig)) :
    ∀ (m : List (String × String)) (tr : List Call),
    createKeys (processOthers b co mk jobs m tr).1 =
      createKeys tr ++ (jobs.map Prod.fst).filter (fun k => !(k == "create_env")) := by
  induction jobs with
  | nil => intro m tr; simp [processOthers]
  | cons p rest ih =>
    intro m tr
    obtain ⟨k, jc⟩ := p
    by_cases hk : k = "create_env"
    · subst hk
      rw [processOthers, if_pos rfl, ih]
      simp
    · have hkb : (!(k == "create_env")) = true := by simp [hk]
      by_cases hco : co k = true
      · rw [processOthers, if_neg hk, if_pos hco, ih, createKeys_append,
          createKeys_single_create]
        simp [List.filter_cons, hkb]
      · rw [processOthers, if_neg hk, if_neg (by simp [hco]), ih, createKeys_append,
          createKeys_single_create]
        simp [List.filter_cons, hkb]

theorem processOthers_startIds (b : Batch) (co : String → Bool) (mk : String → String)
    (jobs : List (String × JobConfig)) :
    ∀ (m : List (String × String)) (tr : List Call),
    startIds (processOthers b co mk jobs m tr).1 = startIds tr := by
  induction jobs with
  | nil => intro m tr; simp [processOthers]
  | cons p rest ih =>
    intro m tr
    obtain ⟨k, jc⟩ := p
    by_cases hk : k = "create_env"
    · subst hk
      rw [processOthers, if_pos rfl, ih]
    · by_cases hco : co k = true
      · rw [processOthers, if_neg hk, if_pos hco, ih, startIds_append,
          startIds_single_create, List.append_nil]
      · rw [processOthers, if_neg hk, if_neg (by simp [hco]), ih, startIds_append,
          startIds_single_create, List.append_nil]

theorem processOthers_mem_create (b : Batch) (co : String → Bool) (mk : String → String)
    (jobs : List (String × JobConfig)) :
    ∀ (m : List (String × String)) (tr : List Call) (c : Call),
    c ∈ (processOthers b co mk jobs m tr).1 →
      c ∈ tr ∨ ∃ k req, c = Call.create k req ∧ k ≠ "create_env" := by
  induction jobs with
  | nil => intro m tr c hc; exact Or.inl (by simpa [processOthers] using hc)
  | cons p rest ih =>
    intro m tr c hc
    obtain ⟨k, jc⟩ := p
    by_cases hk : k = "create_env"
    · subst hk
      rw [processOthers, if_pos rfl] at hc
      exact ih m tr c hc
    · by_cases hco : co k = true
      · rw [processOthers, if_neg hk, if_pos hco] at hc
        rcases ih _ _ c hc with h | h
        · rcases List.mem_append.mp h with h | h
          · exact Or.inl h
          · obtain rfl := List.mem_singleton.mp h
            exact Or.inr ⟨k, _, rfl, hk⟩
        · exact Or.inr h
      · rw [processOthers, if_neg hk, if_neg (by simp [hco])] at hc
        rcases ih _ _ c hc with h | h
        · rcases List.mem_append.mp h with h | h
          · exact Or.inl h
          · obtain rfl := List.mem_singleton.mp h
            exact Or.inr ⟨k, _, rfl, hk⟩
        · exact Or.inr h

theorem find?_key_isSome (jobs : List (String × JobConfig)) (k : String) :
    (jobs.find? (fun p => p.1 = k)).isSome ↔ k ∈ jobs.map Prod.fst := by
  rw [List.find?_isSome]
  constructor
  · rintro ⟨p, hp, hpk⟩
    simp only [decide_eq_true_eq] at hpk
    exact hpk ▸ List.mem_map_of_mem Prod.fst hp
  · intro h
    obtain ⟨p, hp, hpk⟩ := List.mem_map.mp h
    exact ⟨p, hp, by simp [hpk]⟩

theorem setup_jobs_createKeys (b : Batch) (jobs : List (String × JobConfig))
    (co : String → Bool) (mk : String → String) :
    createKeys (setup_jobs b jobs co mk).1 =
      if "create_env" ∈ jobs.map Prod.fst then
        "create_env" :: (jobs.map Prod.fst).filter (fun k => !(k == "create_env"))
      else jobs.map Prod.fst := by
  rw [setup_jobs]
  cases hf : jobs.find? (fun p => p.1 = "create_env") with
  | none =>
    have hnm : "create_env" ∉ jobs.map Prod.fst := by
      intro hmem
      have := (find?_key_isSome jobs "create_env").mpr hmem
      rw [hf] at this
      simp at this
    dsimp only
    rw [processOthers_createKeys, if_neg hnm]
    have hfil : (jobs.map Prod.fst).filter (fun k => !(k == "create_env")) =
        jobs.map Prod.fst := by
      rw [List.filter_eq_self]
      intro a ha
      simp only [Bool.not_eq_eq_eq_not, Bool.not_true, beq_eq_false_iff_ne, ne_eq]
      intro h
      exact hnm (h ▸ ha)
    rw [hfil]
    simp [createKeys]
  | some p =>
    have hmem : "create_env" ∈ jobs.map Prod.fst := by
      refine (find?_key_isSome jobs "create_env").mp ?_
      rw [hf]; rfl
    obtain ⟨k0, jc0⟩ := p
    dsimp only
    by_cases hco : co "create_env" = true
    · rw [if_pos hco, processOthers_createKeys, if_pos hmem]
      simp [createKeys]
    · rw [if_neg (by simp [hco]), processOthers_createKeys, if_pos hmem]
      simp [createKeys]

theorem setup_jobs_startIds (b : Batch) (jobs : List (String × JobConfig))
    (co : String → Bool) (mk : String → String) :
    startIds (setup_jobs b jobs co mk).1 =
      if "create_env" ∈ jobs.map Prod.fst ∧ co "create_env" = true then
        [mk "create_env"]
      else [] := by
  rw [setup_jobs]
  cases hf : jobs.find? (fun p => p.1 = "create_env") with
  | none =>
    have hnm : "create_env" ∉ jobs.map Prod.fst := by
      intro hmem
      have := (find?_key_isSome jobs "create_env").mpr hmem
      rw [hf] at this
      simp at this
    dsimp only
    rw [processOthers_startIds, if_neg (fun h => hnm h.1)]
    simp [startIds]
  | some p =>
    have hmem : "create_env" ∈ jobs.map Prod.fst := by
      refine (find?_key_isSome jobs "create_env").mp ?_
      rw [hf]; rfl
    obtain ⟨k0, jc0⟩ := p
    dsimp only
    by_cases hco : co "create_env" = true
    · rw [if_pos hco, processOthers_startIds, if_pos ⟨hmem, hco⟩]
      simp [startIds]
    · rw [if_neg (by simp [hco]), processOthers_startIds,
        if_neg (fun h => hco h.2)]
      simp [startIds]

theorem setup_jobs_bootstrap_create (b : Batch) (jobs : List (String × JobConfig))
    (co : String → Bool) (mk : String → String) (req : CreateJobRequest)
    (h : Call.create "create_env" req ∈ (setup_jobs b jobs co mk).1) :
    ∃ e, jobs.find? (fun p => p.1 = "create_env") = some e ∧
      req = translate_bootstrap b (adjust_job_paths b.template_dir e.2) := by
  revert h
  rw [setup_jobs]
  cases hf : jobs.find? (fun p => p.1 = "create_env") with
  | none =>
    dsimp only
    intro h
    rcases processOthers_mem_create b co mk jobs _ _ _ h with h | ⟨k, r, hk, hne⟩
    · simp at h
    · exact absurd (Call.create.inj hk.symm).1 hne
  | some e =>
    obtain ⟨k0, jc0⟩ := e
    dsimp only
    by_cases hco : co "create_env" = true
    · rw [if_pos hco]
      intro h
      rcases processOthers_mem_create b co mk jobs _ _ _ h with h | ⟨k, r, hk, hne⟩
      · rcases List.mem_cons.mp h with h | h
        · exact ⟨(k0, jc0), rfl, (Call.create.inj h).2⟩
        · simp at h
      · exact absurd (Call.create.inj hk.symm).1 hne
    · rw [if_neg (by simp [hco])]
      intro h
      rcases processOthers_mem_create b co mk jobs _ _ _ h with h | ⟨k, r, hk, hne⟩
      · rcases List.mem_cons.mp h with h | h
        · exact ⟨(k0, jc0), rfl, (Call.create.inj h).2⟩
        · simp at h
      · exact absurd (Call.create.inj hk.symm).1 hne

theorem setup_jobs_createKeys_count (b : Batch) (jobs : List (String × JobConfig))
    (co : String → Bool) (mk : String → String)
    (hnd : (jobs.map Prod.fst).Nodup) (k : String)
    (hkmem : k ∈ jobs.map Prod.fst) (hk : k ≠ "create_env") :
    List.count k (createKeys (setup_jobs b jobs co mk).1) = 1 := by
  rw [setup_jobs_createKeys]
  by_cases hmem : "create_env" ∈ jobs.map Prod.fst
  · rw [if_pos hmem, List.count_cons_of_ne hk, List.count_filter (by simp [hk]),
      List.count_eq_one_of_mem hnd hkmem]
  · rw [if_neg hmem, List.count_eq_one_of_mem hnd hkmem]

theorem setup_jobs_order_perm (b : Batch) (jobs : List (String × JobConfig))
    (co : String → Bool) (mk : String → String)
    (hnd : (jobs.map Prod.fst).Nodup) :
    (createKeys (setup_jobs b jobs co mk).1).Perm (jobs.map Prod.fst) := by
  rw [setup_jobs_createKeys]
  by_cases hmem : "create_env" ∈ jobs.map Prod.fst
  · rw [if_pos hmem]
    refine List.perm_iff_count.mpr fun a => ?_
    by_cases ha : a = "create_env"
    · subst ha
      rw [List.count_cons_self]
      have hzero :
          List.count "create_env"
            ((jobs.map Prod.fst).filter (fun k => !(k == "create_env"))) = 0 := by
        rw [List.count_eq_zero]
        intro hmem'
        have := (List.mem_filter.mp hmem').2
        simp at this
      rw [hzero, List.count_eq_one_of_mem hnd hmem]
    · rw [List.count_cons_of_ne ha, List.count_filter (by simp [ha])]
  · rw [if_neg hmem]

/-! ### Claim theorems -/

/-- C1: the claim states that when the configuration contains the bootstrap
key `create_env` and its creation call fails, the run aborts and `job_b` is
never translated or submitted.  `setup_jobs` (`run_jobs.py` lines 179-181)
instead catches the failure and continues: on the claim's configuration
with a client that fails exactly the `create_env` creation, the trace still
contains a creation call for `job_b` (and no start call).  The local runner
`test_run_jobs.py` (lines 174-181) stops the run in this situation, which
is the behaviour the claim describes. -/
theorem c1_bootstrap_failure_continues :
    createKeys (setup_jobs wB c1Jobs coFailBoot mkW).1 = ["create_env", "job_b"] ∧
    startIds (setup_jobs wB c1Jobs coFailBoot mkW).1 = [] := by
  constructor <;> decide

/-- C2 counterexample: the claim states that on a key collision the
injected `TEMPLATE_DIR` entry does not override an explicitly declared
entry of the same name.  In the code the assignment
`job_body.environment[TEMPLATE_DIR] = template_dir` runs last and always
wins: a job declaring `TEMPLATE_DIR=bar` under template directory `foo`
ends up with `TEMPLATE_DIR=foo`, not `bar`. -/
theorem c2_injected_overrides_declared :
    (translate_job { template_dir := "foo" }
        { name := "J", script := "j.py", environment := some [("TEMPLATE_DIR", "bar")] }
        []).1.environment = some [("TEMPLATE_DIR", "foo")] ∧
    ("foo" : String) ≠ "bar" := by
  constructor <;> decide

/-- C2 (amended): the request environment is the union of the job's
declared `environment` entries and the injected `TEMPLATE_DIR` entry, with
the injected entry overriding a declared entry of the same key; when the
declared map is absent, the request environment contains only the injected
entry; and the claimed concrete example
`{"X":"1"} + TEMPLATE_DIR=foo = {"X":"1","TEMPLATE_DIR":"foo"}` holds. -/
theorem c2_environment_merge (b : Batch) (jc : JobConfig) (m : List (String × String)) :
    ((translate_job b jc m).1.environment =
      some (mergedEnvironment b.template_dir jc.environment)) ∧
    dictGet? (mergedEnvironment b.template_dir jc.environment) "TEMPLATE_DIR" =
      some b.template_dir ∧
    (∀ k, k ≠ "TEMPLATE_DIR" →
      dictGet? (mergedEnvironment b.template_dir jc.environment) k =
        dictGet? (jc.environment.getD []) k) ∧
    (jc.environment = none →
      mergedEnvironment b.template_dir jc.environment = [("TEMPLATE_DIR", b.template_dir)]) ∧
    (translate_job { template_dir := "foo" }
        { name := "J", script := "j.py", environment := some [("X", "1")] } []).1.environment =
      some [("X", "1"), ("TEMPLATE_DIR", "foo")] := by
  refine ⟨rfl, ?_, ?_, ?_, by decide⟩
  · rw [mergedEnvironment, dictGet?_dictSet]
    simp
  · intro k hk
    rw [mergedEnvironment, dictGet?_dictSet, if_neg hk]
  · intro hnone
    rw [hnone, mergedEnvironment]
    rfl

/-- C2 witness. -/
theorem c2_environment_merge_witness :
    dictGet? (mergedEnvironment "foo" (some [("X", "1")])) "X" = some "1" ∧
    mergedEnvironment "foo" (none : Option (List (String × String))) =
      [("TEMPLATE_DIR", "foo")] := by
  constructor
  · have h := (c2_environment_merge { template_dir := "foo" }
      { name := "J", script := "j.py", environment := some [("X", "1")] } []).2.2.1
      "X" (by decide)
    rw [h]
    decide
  · exact (c2_environment_merge { template_dir := "foo" }
      { name := "J", script := "j.py" } []).2.2.2.1 rfl

/-- C3: the claim states that no operation of the orchestrator modifies a
loaded job definition, including its nested `environment` mapping.
`adjust_job_paths` copies only the outer dict ("Make a copy to avoid
modifying the original"), so the copy's `environment` is the loaded
definition's very dict, and the assignment
`job_body.environment[TEMPLATE_DIR] = template_dir` writes through the
shared reference: a definition declaring `environment={"X":"1"}` has
gained a `TEMPLATE_DIR` entry by the end of the run. -/
theorem c3_loaded_definition_mutated :
    config_after_setup "foo" jcEnvX ≠ jcEnvX ∧
    config_after_setup "foo" jcEnvX =
      { jcEnvX with environment := some [("X", "1"), ("TEMPLATE_DIR", "foo")] } := by
  constructor <;> decide

/-- C5 counterexample: the claim states the hardcoded fallback for `memory`
is `1`; the code's fallback (`os.environ.get("DEFAULT_MEMORY", "2")`) is
`2`: a job declaring no memory, with no batch default, gets `memory="2"`. -/
theorem c5_memory_fallback_is_two :
    (translate_job {} { name := "J", script := "j.py" } []).1.memory = "2" ∧
    ("2" : String) ≠ "1" := by
  constructor <;> decide

/-- C5 (amended): each translated-request field resolves as explicit value
on the job definition, else batch-wide default, else hardcoded fallback,
with fallbacks `cpu="1"`, `memory="2"`, `timeout="3600"`,
`kernel="python3"`; and in the claimed example with batch default `cpu=1`,
`job_a` declaring `cpu=2` gets `"2"` while `job_b` gets `"1"`. -/
theorem c5_field_resolution (b : Batch) (jc : JobConfig) (m : List (String × String)) :
    (∀ x, jc.cpu = some x → (translate_job b jc m).1.cpu = x) ∧
    (jc.cpu = none → ∀ d, b.default_cpu = some d → (translate_job b jc m).1.cpu = d) ∧
    (jc.cpu = none → b.default_cpu = none → (translate_job b jc m).1.cpu = "1") ∧
    (∀ x, jc.memory = some x → (translate_job b jc m).1.memory = x) ∧
    (jc.memory = none → ∀ d, b.default_memory = some d → (translate_job b jc m).1.memory = d) ∧
    (jc.memory = none → b.default_memory = none → (translate_job b jc m).1.memory = "2") ∧
    (∀ x, jc.timeout = some x → (translate_job b jc m).1.timeout = x) ∧
    (jc.timeout = none → ∀ d, b.default_timeout = some d →
      (translate_job b jc m).1.timeout = d) ∧
    (jc.timeout = none → b.default_timeout = none → (translate_job b jc m).1.timeout = "3600") ∧
    (∀ x, jc.kernel = some x → (translate_job b jc m).1.kernel = x) ∧
    (jc.kernel = none → (translate_job b jc m).1.kernel = "python3") ∧
    (translate_job { default_cpu := some "1" }
      { name := "A", script := "a.py", cpu := some "2" } []).1.cpu = "2" ∧
    (translate_job { default_cpu := some "1" }
      { name := "B", script := "b.py" } []).1.cpu = "1" := by
  refine ⟨?_, ?_, ?_, ?_, ?_, ?_, ?_, ?_, ?_, ?_, ?_, by decide, by decide⟩ <;>
    first
      | (intro h1 d h2
         simp [translate_job, h1, h2])
      | (intro h1 h2
         simp [translate_job, h1, h2])
      | (intro x hx
         simp [translate_job, hx])
      | (intro h1
         simp [translate_job, h1])

/-- C5 witness. -/
theorem c5_field_resolution_witness :
    ({ name := "J", script := "j.py" } : JobConfig).memory = none ∧
    (translate_job {} { name := "J", script := "j.py" } []).1.memory = "2" :=
  ⟨rfl, (c5_field_resolution {} { name := "J", script := "j.py" } []).2.2.2.2.2.1 rfl rfl⟩

/-- C10: a script starting with the literal `template/` has every
occurrence of `template/` in it (not only the leading one) replaced by the
configured template directory followed by `/`; a script not starting with
`template/` is left alone; and all fields other than `script` are
unchanged. -/
theorem c10_adjust_job_paths (tdir : String) (jc : JobConfig) :
    (pyStartsWith jc.script "template/" = true →
      (adjust_job_paths tdir jc).script = pyReplace jc.script "template/" (tdir ++ "/")) ∧
    (pyStartsWith jc.script "template/" = false → adjust_job_paths tdir jc = jc) ∧
    ((adjust_job_paths tdir jc).name = jc.name ∧
     (adjust_job_paths tdir jc).kernel = jc.kernel ∧
     (adjust_job_paths tdir jc).runtime_id = jc.runtime_id ∧
     (adjust_job_paths tdir jc).cpu = jc.cpu ∧
     (adjust_job_paths tdir jc).memory = jc.memory ∧
     (adjust_job_paths tdir jc).nvidia_gpu = jc.nvidia_gpu ∧
     (adjust_job_paths tdir jc).timeout = jc.timeout ∧
     (adjust_job_paths tdir jc).arguments = jc.arguments ∧
     (adjust_job_paths tdir jc).environment = jc.environment ∧
     (adjust_job_paths tdir jc).attachments = jc.attachments ∧
     (adjust_job_paths tdir jc).schedule = jc.schedule ∧
     (adjust_job_paths tdir jc).parent_job_id = jc.parent_job_id) ∧
    pyReplace "template/scripts/template/x.py" "template/" "T/" = "T/scripts/T/x.py" := by
  refine ⟨fun h => ?_, fun h => ?_, ?_, by decide⟩
  · rw [adjust_job_paths, if_pos h]
  · rw [adjust_job_paths, if_neg (by simp [h])]
  · rw [adjust_job_paths]
    by_cases h : pyStartsWith jc.script "template/" = true
    · rw [if_pos h]
      exact ⟨rfl, rfl, rfl, rfl, rfl, rfl, rfl, rfl, rfl, rfl, rfl, rfl⟩
    · rw [if_neg (by simp at h; simp [h])]
      exact ⟨rfl, rfl, rfl, rfl, rfl, rfl, rfl, rfl, rfl, rfl, rfl, rfl⟩

/-- C10 witness. -/
theorem c10_adjust_job_paths_witness :
    pyStartsWith jcTpl.script "template/" = true ∧
    (adjust_job_paths "T" jcTpl).script = "T/scripts/T/x.py" := by
  refine ⟨by decide, ?_⟩
  rw [(c10_adjust_job_paths "T" jcTpl).1 (by decide)]
  decide

/-- C4: with no bootstrap key, the submission order is exactly the
configuration's declared key order; with a bootstrap key present anywhere,
`create_env` comes first, followed by the remaining keys in declared order;
in both cases the order is a permutation of the declared keys (each key
exactly once, by key uniqueness). -/
theorem c4_sequencer_order (b : Batch) (jobs : List (String × JobConfig))
    (co : String → Bool) (mk : String → String)
    (hnd : (jobs.map Prod.fst).Nodup) :
    ("create_env" ∉ jobs.map Prod.fst →
      createKeys (setup_jobs b jobs co mk).1 = jobs.map Prod.fst) ∧
    ("create_env" ∈ jobs.map Prod.fst →
      createKeys (setup_jobs b jobs co mk).1 =
        "create_env" :: (jobs.map Prod.fst).filter (fun k => !(k == "create_env"))) ∧
    (createKeys (setup_jobs b jobs co mk).1).Perm (jobs.map Prod.fst) := by
  refine ⟨fun hnm => ?_, fun hmem => ?_, setup_jobs_order_perm b jobs co mk hnd⟩
  · rw [setup_jobs_createKeys, if_neg hnm]
  · rw [setup_jobs_createKeys, if_pos hmem]

/-- C4 witness: a configuration with the bootstrap key in the middle. -/
theorem c4_sequencer_order_witness :
    (wJobs.map Prod.fst).Nodup ∧
    (("create_env" ∉ wJobs.map Prod.fst →
        createKeys (setup_jobs wB wJobs coT mkW).1 = wJobs.map Prod.fst) ∧
     ("create_env" ∈ wJobs.map Prod.fst →
        createKeys (setup_jobs wB wJobs coT mkW).1 =
          "create_env" :: (wJobs.map Prod.fst).filter (fun k => !(k == "create_env"))) ∧
     (createKeys (setup_jobs wB wJobs coT mkW).1).Perm (wJobs.map Prod.fst)) :=
  ⟨by decide, c4_sequencer_order wB wJobs coT mkW (by decide)⟩

/-- C6: a declared `schedule` is attached as-is and suppresses any parent
reference; otherwise a declared parent key that has a recorded identifier
in the `job_id_map` is resolved onto the request, and a parent key without
one leaves the request without a parent reference and records a warning. -/
theorem c6_schedule_parent (b : Batch) (jc : JobConfig) (m : List (String × String)) :
    (∀ s, jc.schedule = some s →
      (translate_job b jc m).1.schedule = some s ∧
      (translate_job b jc m).1.parent_job_id = none) ∧
    (jc.schedule = none → ∀ p, jc.parent_job_id = some p →
      (∀ pid, dictGet? m p = some pid →
        (translate_job b jc m).1.parent_job_id = some pid) ∧
      (dictGet? m p = none →
        (translate_job b jc m).1.parent_job_id = none ∧
        JobWarning.missingParent p ∈ (translate_job b jc m).2)) := by
  constructor
  · intro s hs
    constructor <;> simp [translate_job, hs]
  · intro hs p hp
    refine ⟨fun pid hpid => ?_, fun hpid => ⟨?_, ?_⟩⟩
    · simp [translate_job, hs, hp, hpid]
    · simp [translate_job, hs, hp, hpid]
    · simp [translate_job, hs, hp, hpid]

/-- C6 witness: the dependent job of the fixtures, once with its parent
recorded and once without. -/
theorem c6_schedule_parent_witness :
    (translate_job wB jcDepB [("create_env", "id-1")]).1.parent_job_id = some "id-1" ∧
    (translate_job wB jcDepB []).1.parent_job_id = none ∧
    JobWarning.missingParent "create_env" ∈ (translate_job wB jcDepB []).2 :=
  ⟨((c6_schedule_parent wB jcDepB [("create_env", "id-1")]).2 rfl "create_env" rfl).1
      "id-1" (by decide),
   (((c6_schedule_parent wB jcDepB []).2 rfl "create_env" rfl).2 (by decide)).1,
   (((c6_schedule_parent wB jcDepB []).2 rfl "create_env" rfl).2 (by decide)).2⟩

/-- C7: with any of the three mandatory environment values missing (unset
or empty, per Python truthiness), the run fails before any submission with
an error enumerating exactly the missing names; with all three present the
check passes and the submission loop runs. -/
theorem c7_required_env (host keyv proj : Option String) (b : Batch)
    (jobs : List (String × JobConfig)) (co : String → Bool) (mk : String → String) :
    ((truthy host = true ∧ truthy keyv = true ∧ truthy proj = true) →
      setup_jobs_checked host keyv proj b jobs co mk = .ok (setup_jobs b jobs co mk)) ∧
    (¬(truthy host = true ∧ truthy keyv = true ∧ truthy proj = true) →
      setup_jobs_checked host keyv proj b jobs co mk =
        .error (missing_env_vars host keyv proj) ∧
      missing_env_vars host keyv proj ≠ []) ∧
    ("CML_API_HOST" ∈ missing_env_vars host keyv proj ↔ truthy host = false) ∧
    ("CML_API_KEY" ∈ missing_env_vars host keyv proj ↔ truthy keyv = false) ∧
    ("CML_PROJECT_ID" ∈ missing_env_vars host keyv proj ↔ truthy proj = false) := by
  refine ⟨?_, ?_, ?_, ?_, ?_⟩
  · rintro ⟨hh, hk, hp⟩
    simp [setup_jobs_checked, check_required_env, hh, hk, hp]
  · intro hcon
    have hb : ((truthy host && truthy keyv) && truthy proj) = false := by
      cases hh : truthy host <;> cases hk : truthy keyv <;> cases hp : truthy proj <;>
        simp_all
    refine ⟨?_, ?_⟩
    · simp only [setup_jobs_checked, check_required_env, hb]
      rfl
    · cases hh : truthy host <;> cases hk : truthy keyv <;> cases hp : truthy proj <;>
        simp_all [missing_env_vars]
  · cases hh : truthy host <;> simp [missing_env_vars, hh]
  · cases hh : truthy host <;> cases hk : truthy keyv <;> cases hp : truthy proj <;>
      simp [missing_env_vars, hh, hk, hp]
  · cases hh : truthy host <;> cases hk : truthy keyv <;> cases hp : truthy proj <;>
      simp [missing_env_vars, hh, hk, hp]

/-- C7 witness: key unset and project identifier empty (falsy) while the
host is present: the run fails with exactly those two names. -/
theorem c7_required_env_witness :
    setup_jobs_checked (some "h") none (some "") wB [] coT mkW =
      .error ["CML_API_KEY", "CML_PROJECT_ID"] :=
  (((c7_required_env (some "h") none (some "") wB [] coT mkW).2.1
      (by decide)).1).trans (congrArg Except.error (by decide))

/-- C8: the executor issues a start call exactly when the bootstrap job is
present and its creation succeeded, and that single start call is for the
bootstrap job's returned identifier; every non-bootstrap job gets exactly
one creation call and never a start call. -/
theorem c8_bootstrap_start (b : Batch) (jobs : List (String × JobConfig))
    (co : String → Bool) (mk : String → String)
    (hnd : (jobs.map Prod.fst).Nodup) :
    (("create_env" ∈ jobs.map Prod.fst ∧ co "create_env" = true) →
      startIds (setup_jobs b jobs co mk).1 = [mk "create_env"]) ∧
    (¬("create_env" ∈ jobs.map Prod.fst ∧ co "create_env" = true) →
      startIds (setup_jobs b jobs co mk).1 = []) ∧
    (∀ k ∈ jobs.map Prod.fst, k ≠ "create_env" →
      List.count k (createKeys (setup_jobs b jobs co mk).1) = 1) := by
  refine ⟨fun h => ?_, fun h => ?_,
    fun k hkm hk => setup_jobs_createKeys_count b jobs co mk hnd k hkm hk⟩
  · rw [setup_jobs_startIds, if_pos h]
  · rw [setup_jobs_startIds, if_neg h]

/-- C8 witness. -/
theorem c8_bootstrap_start_witness :
    (wJobs.map Prod.fst).Nodup ∧
    startIds (setup_jobs wB wJobs coT mkW).1 = [mkW "create_env"] ∧
    List.count "job_a" (createKeys (setup_jobs wB wJobs coT mkW).1) = 1 :=
  ⟨by decide,
   (c8_bootstrap_start wB wJobs coT mkW (by decide)).1 ⟨by decide, rfl⟩,
   (c8_bootstrap_start wB wJobs coT mkW (by decide)).2.2 "job_a" (by decide) (by decide)⟩

/-- C9: every creation call issued for the bootstrap key carries a request
without attachments, schedule or parent reference — even when the
bootstrap definition declares them — while the non-bootstrap translation
passes declared attachments and schedule through to the request. -/
theorem c9_bootstrap_request_bare (b : Batch) (jobs : List (String × JobConfig))
    (co : String → Bool) (mk : String → String) (req : CreateJobRequest)
    (h : Call.create "create_env" req ∈ (setup_jobs b jobs co mk).1) :
    (req.attachments = none ∧ req.schedule = none ∧ req.parent_job_id = none) ∧
    (∀ jc m, (translate_job b jc m).1.attachments = jc.attachments ∧
      (translate_job b jc m).1.schedule = jc.schedule) := by
  obtain ⟨e, hf, hreq⟩ := setup_jobs_bootstrap_create b jobs co mk req h
  subst hreq
  exact ⟨⟨rfl, rfl, rfl⟩, fun jc m => ⟨rfl, rfl⟩⟩

/-- C9 witness: a bootstrap definition declaring attachments, a schedule
and a parent still yields a bare bootstrap request. -/
theorem c9_bootstrap_request_bare_witness :
    (translate_bootstrap wB (adjust_job_paths wB.template_dir jcBootFull)).attachments = none ∧
    (translate_bootstrap wB (adjust_job_paths wB.template_dir jcBootFull)).schedule = none ∧
    (translate_bootstrap wB (adjust_job_paths wB.template_dir jcBootFull)).parent_job_id =
      none :=
  (c9_bootstrap_request_bare wB c9Jobs coT mkW
    (translate_bootstrap wB (adjust_job_paths wB.template_dir jcBootFull)) (by decide)).1
